import Mathlib

/-!
Verification of the feature-extraction-and-classification pipeline of the
skin-analysis repository (`skin_analyzer.py`), as a shallow embedding in Lean.

Conventions of the embedding:
- Python/numpy floating-point values are modelled as rationals (`ℚ`), so all
  arithmetic is exact and the definitions stay executable.
- numpy's global random generator is modelled as an explicit deterministic
  state (`RngState`): each normal draw is a fixed computable function of the
  state.  The exact distribution of the draws is irrelevant to every property
  proved here (the properties quantify over all draws or only use determinism
  and state threading), so the draw function is a simple stand-in; what is
  translated faithfully from the source is where the state is seeded and how
  many draws happen in which order.
- Python exceptions are modelled with `Except`/explicit outcome types; a
  `try/except` block that logs and returns a default is modelled by a match
  that maps the error branch to that default.
-/

namespace SkinAnalyzer

/-! ## Model of numpy's global random state

`generate_synthetic_data` starts with `np.random.seed(42)` and then draws
`np.random.normal(0, noise_scale, 18)` once per sample.  We model the global
generator state as a value threaded through the computation. -/

/-- Model of the numpy global RNG state. -/
structure RngState where
  val : ℕ
deriving DecidableEq, Repr

/-- Model of `np.random.seed(s)`: resets the global state deterministically
from the seed. -/
def npSeed (s : ℕ) : RngState := ⟨s⟩

/-- Model of one standard-normal draw: a deterministic computable function of
the state (stand-in values; only determinism and state advancement matter for
the claims). Returns the draw and the advanced state. -/
def stdNormalStep (st : RngState) : ℚ × RngState :=
  ((((st.val % 9 : ℕ) : ℚ) - 4) / 4, ⟨st.val + 1⟩)

/-- Model of one draw of `np.random.normal(0, scale)`. -/
def normalDraw (scale : ℚ) (st : RngState) : ℚ × RngState :=
  let (z, st') := stdNormalStep st
  (scale * z, st')

/-- Model of `np.random.normal(0, scale, n)`: `n` draws in order. -/
def normalVec (scale : ℚ) : ℕ → RngState → List ℚ × RngState
  | 0, st => ([], st)
  | n + 1, st =>
    let p := normalDraw scale st
    let rest := normalVec scale n p.2
    (p.1 :: rest.1, rest.2)

/-! ## Synthetic data generator (`generate_synthetic_data`) -/

/-- The hand-authored 18-dimensional prototype feature vector for each
SkinType (`base_features` in the source; 0 = dry, 1 = oily, 2 = combination,
3 = sensitive). -/
def base_features : Fin 4 → List ℚ
  | 0 => [1/2, 3/10, 2/5, 1/10, 1/10, 1/10, 2/5, 0, 0, 1/10, 1/10, 1/10,
          3/10, 1/5, 3/10, 2/5, 1/5, 3/10]
  | 1 => [1/2, 3/5, 7/10, 1/10, 1/10, 1/10, 3/5, 0, 0, 1/10, 1/10, 1/10,
          7/10, 3/10, 1/2, 1/10, 3/5, 1/2]
  | 2 => [1/2, 2/5, 1/2, 1/10, 1/10, 1/10, 1/2, 0, 0, 1/10, 1/10, 1/10,
          1/2, 1/4, 2/5, 1/4, 2/5, 2/5]
  | 3 => [1/2, 3/10, 2/5, 3/20, 3/20, 3/20, 2/5, 0, 0, 3/20, 3/20, 3/20,
          3/5, 2/5, 3/10, 3/10, 1/2, 1/2]

/-- The SkinType-specific Gaussian noise standard deviation (`noise_scale` in
the source): dry 0.10, oily 0.10, combination 0.15, sensitive 0.12. -/
def noise_scale : Fin 4 → ℚ
  | 0 => 1/10
  | 1 => 1/10
  | 2 => 3/20
  | 3 => 3/25

/-- `l` with entry `i` increased by `d` (the `base_features[i] += d`
mutation). -/
def bumpAt (i : ℕ) (d : ℚ) (l : List ℚ) : List ℚ :=
  l.set i (l.getD i 0 + d)

/-- The SkinCondition perturbation of the prototype (before noise):
condition 1 (Acne) adds 0.2 to dimension 15, condition 2 (PigmentationSpots)
adds 0.2 to dimension 13, condition 3 (EnlargedPores) adds 0.2 to
dimension 17, condition 0 (Normal) changes nothing. -/
def cond_adjust : Fin 4 → List ℚ → List ℚ
  | 0, l => l
  | 1, l => bumpAt 15 (1/5) l
  | 2, l => bumpAt 13 (1/5) l
  | 3, l => bumpAt 17 (1/5) l

/-- `np.clip(x, 0, 1)` on one entry. -/
def clip01 (x : ℚ) : ℚ := min 1 (max x 0)

/-- One synthetic feature vector: condition-adjusted prototype plus noise,
clipped to [0, 1] per dimension. -/
def make_sample (ty cond : Fin 4) (noise : List ℚ) : List ℚ :=
  List.zipWith (fun b n => clip01 (b + n)) (cond_adjust cond (base_features ty)) noise

/-- One labelled synthetic sample (the source keeps three parallel arrays
`features_list`, `skin_type_labels`, `skin_cond_labels`; we keep the zipped
triples). -/
structure Sample where
  features : List ℚ
  ty : Fin 4
  cond : Fin 4
deriving DecidableEq, Repr

instance : Inhabited Sample := ⟨⟨[], 0, 0⟩⟩

/-- The innermost loop of `generate_synthetic_data`: `cnt` samples of the
stratum `(ty, cond)`, threading the RNG state. -/
def genStratum (ty cond : Fin 4) : ℕ → RngState → List Sample × RngState
  | 0, st => ([], st)
  | k + 1, st =>
    let nv := normalVec (noise_scale ty) 18 st
    let rest := genStratum ty cond k nv.2
    (⟨make_sample ty cond nv.1, ty, cond⟩ :: rest.1, rest.2)

/-- The middle loop: for one SkinType, the four SkinCondition strata in
order, each with `cnt` samples. -/
def genType (ty : Fin 4) (cnt : ℕ) (st : RngState) : List Sample × RngState :=
  let r0 := genStratum ty 0 cnt st
  let r1 := genStratum ty 1 cnt r0.2
  let r2 := genStratum ty 2 cnt r1.2
  let r3 := genStratum ty 3 cnt r2.2
  (r0.1 ++ (r1.1 ++ (r2.1 ++ r3.1)), r3.2)

/-- `generate_synthetic_data(n_samples)`.  `rng` is the ambient global
random state at call time; the function immediately overwrites it with
`np.random.seed(42)` exactly as the source does.  Per type,
`n_type_samples = n_samples // 4`; per condition,
`n_cond_samples = n_type_samples // 4`. -/
def generate_synthetic_data (n_samples : ℕ) (rng : RngState) : List Sample :=
  let _ := rng
  let st := npSeed 42
  let cnt := n_samples / 4 / 4
  let r0 := genType 0 cnt st
  let r1 := genType 1 cnt r0.2
  let r2 := genType 2 cnt r1.2
  let r3 := genType 3 cnt r2.2
  r0.1 ++ (r1.1 ++ (r2.1 ++ r3.1))

/-- Membership test for one stratum, used to count samples per stratum. -/
def inStratum (t c : Fin 4) (s : Sample) : Bool :=
  decide (s.ty = t) && decide (s.cond = c)

/-! ## Standardizer, arrays, and the random-forest predictors

The predictors return Python dicts: a success payload, or `{'error': msg}`
when a check fails or an exception is caught.  We model the observable result
as `Except PredictError _`, classifying the error messages of the source into
the spec's typed error taxonomy (`modelNotTrained` for "Model chưa được huấn
luyện", `scalerNotFitted` for "Bộ chuẩn hóa (scaler) chưa được huấn luyện",
`other` for any caught exception's message). -/

inductive PredictError where
  | modelNotTrained
  | scalerNotFitted
  | other (msg : String)
deriving DecidableEq, Repr

/-- A numpy array as passed to the predictors: 1-D or 2-D. -/
inductive NpArr where
  | one (v : List ℚ)
  | two (rows : List (List ℚ))
deriving DecidableEq, Repr

/-- `features.reshape(1, -1)`: one row holding all entries. -/
def reshape1m1 : NpArr → NpArr
  | .one v => .two [v]
  | .two rows => .two [rows.flatten]

/-- `StandardScaler` state: `mean_`/`scale_` exist only after `fit`
(`hasattr(scaler, 'scale_')` is the source's fitted check). -/
structure Scaler where
  fitted : Option (List ℚ × List ℚ)

/-- One row of `scaler.transform`: `(x - mean_) / scale_` per dimension. -/
def transformRow (mean scale row : List ℚ) : List ℚ :=
  List.zipWith (fun x ms => (x - ms.1) / ms.2) row (List.zip mean scale)

def expected2DMsg : String := "Expected 2D array, got 1D array instead"

def zeroSampleMsg : String := "Found array with 0 sample(s)"

def featureMismatchMsg : String := "X has a different number of features than during fitting"

/-- `scaler.transform(X)`: raises (modelled as `.error`) on an unfitted
scaler, a 1-D input, an empty 2-D input, or a feature-count mismatch;
otherwise standardizes every row. -/
def Scaler.transform (s : Scaler) (a : NpArr) : Except PredictError (List (List ℚ)) :=
  match s.fitted with
  | none => .error (.other "NotFittedError")
  | some (mean, scale) =>
    match a with
    | .one _ => .error (.other expected2DMsg)
    | .two rows =>
      if rows.isEmpty then .error (.other zeroSampleMsg)
      else if rows.all (fun r => r.length == mean.length) then
        .ok (rows.map (transformRow mean scale))
      else .error (.other featureMismatchMsg)

/-- Per-class probabilities over the 4 classes. -/
abbrev ProbVec := Fin 4 → ℚ

/-- One fitted decision tree of the forest, as its per-class probability
response to an input row (the tree-fitting internals are sklearn's; a trained
tree always answers with a normalized leaf distribution, which is the
hypothesis used by the probability-mass theorem). -/
abbrev DecisionTree := List ℚ → ProbVec

/-- A fitted `RandomForestClassifier` trained on the 4 classes. -/
abbrev Forest := List DecisionTree

/-- sklearn forest `predict_proba`: mean of the per-tree class
probabilities. -/
def predict_proba (m : Forest) (x : List ℚ) : ProbVec :=
  fun c => ((m.map (fun t => t x c)).sum) / (m.length : ℚ)

/-- `np.argmax` over the 4 class probabilities (first maximum wins): the
left fold of "replace the best index only when strictly greater" over the
classes 0, 1, 2, 3, written out. -/
def argmaxF (p : ProbVec) : Fin 4 :=
  let b1 : Fin 4 := if p 0 < p 1 then 1 else 0
  let b2 : Fin 4 := if p b1 < p 2 then 2 else b1
  if p b2 < p 3 then 3 else b2

/-- sklearn forest `predict`: arg-max class of the averaged probabilities. -/
def rf_predict (m : Forest) (x : List ℚ) : Fin 4 := argmaxF (predict_proba m x)

/-- `np.max` over the 4 class probabilities. -/
def maxF (p : ProbVec) : ℚ := max (max (max (p 0) (p 1)) (p 2)) (p 3)

/-- The success payload of a predictor: predicted class, confidence, and the
per-class probability distribution (`all_probabilities`). -/
structure PredResult where
  label : Fin 4
  confidence : ℚ
  probs : ProbVec

/-- The mutable classifier state of the `SkinAnalyzer` object: the two
models, their standardizers, and the trained flags. -/
structure SkinAnalyzerState where
  model : Option Forest
  cond_model : Option Forest
  scaler : Scaler
  cond_scaler : Scaler
  is_trained : Bool
  is_cond_trained : Bool

/-- `predict_skin_type(features)`: fail if untrained or no model, fail if the
scaler lacks `scale_`, otherwise standardize `features.reshape(1, -1)`,
predict on row 0, and report `confidence = probabilities[prediction]`. -/
def predict_skin_type (A : SkinAnalyzerState) (features : NpArr) :
    Except PredictError PredResult :=
  match A.model, A.is_trained with
  | none, _ => .error .modelNotTrained
  | some _, false => .error .modelNotTrained
  | some m, true =>
    if (A.scaler.fitted).isNone then .error .scalerNotFitted
    else
      match A.scaler.transform (reshape1m1 features) with
      | .error e => .error e
      | .ok rows =>
        let row := rows.headD []
        let prediction := rf_predict m row
        let probabilities := predict_proba m row
        .ok ⟨prediction, probabilities prediction, probabilities⟩

/-- `predict_skin_condition(features)`: same checks for its own model and
scaler, but the input is passed to the standardizer *without* reshaping, and
`confidence = np.max(proba)`. -/
def predict_skin_condition (A : SkinAnalyzerState) (features : NpArr) :
    Except PredictError PredResult :=
  match A.cond_model, A.is_cond_trained with
  | none, _ => .error .modelNotTrained
  | some _, false => .error .modelNotTrained
  | some m, true =>
    if (A.cond_scaler.fitted).isNone then .error .scalerNotFitted
    else
      match A.cond_scaler.transform features with
      | .error e => .error e
      | .ok rows =>
        let row := rows.headD []
        let pred := rf_predict m row
        let proba := predict_proba m row
        .ok ⟨pred, maxF proba, proba⟩

/-- A freshly constructed, never-trained analyzer (no persisted files found:
both models `None`, both scalers unfitted, both flags false). -/
def freshAnalyzer : SkinAnalyzerState :=
  ⟨none, none, ⟨none⟩, ⟨none⟩, false, false⟩

/-! ## Training (`train_model`, `train_condition_model`, `auto_train`) -/

inductive TrainError where
  | insufficientData
deriving DecidableEq, Repr

/-- The caller-observable outcome of a Python call: an uncaught exception, or
a returned value. -/
inductive PyOutcome (α : Type) where
  | raised (e : TrainError)
  | returns (v : α)
deriving DecidableEq, Repr

/-- `train_test_split(..., test_size=0.2, stratify=labels)` succeeds exactly
when every class present in `labels` has at least 2 members (sklearn raises
`ValueError: The least populated class in y has only 1 member` otherwise). -/
def stratifyOk (labels : List (Fin 4)) : Bool :=
  (List.finRange 4).all fun c =>
    labels.count c == 0 || decide (2 ≤ labels.count c)

/-- The body of `train_model` inside its `try`: the stratified split (which
may raise), then standardizer fitting, forest fitting, and held-out accuracy
evaluation.  The sklearn fitting/evaluation internals are abstracted as the
oracle `fitEval`, an arbitrary function from the training data to the
held-out accuracy; the claims under verification depend only on the split's
error behaviour and on how the returned accuracy is used. -/
def train_model_body (fitEval : List (List ℚ) → List (Fin 4) → ℚ)
    (features : List (List ℚ)) (labels : List (Fin 4)) : Except TrainError ℚ :=
  if stratifyOk labels then .ok (fitEval features labels)
  else .error .insufficientData

/-- `train_model` as observed by its caller: the whole body sits in
`try/except Exception`, which logs any exception and returns `0.0` — so the
call always returns, it never propagates an exception. -/
def train_model_outcome (fitEval : List (List ℚ) → List (Fin 4) → ℚ)
    (features : List (List ℚ)) (labels : List (Fin 4)) : PyOutcome ℚ :=
  match train_model_body fitEval features labels with
  | .ok a => .returns a
  | .error _ => .returns 0

/-- The accuracy value `train_model` hands back. -/
def train_model (fitEval : List (List ℚ) → List (Fin 4) → ℚ)
    (features : List (List ℚ)) (labels : List (Fin 4)) : ℚ :=
  match train_model_outcome fitEval features labels with
  | .returns a => a
  | .raised _ => 0

/-- `train_condition_model`: identical control flow with its own
hyperparameters (50 trees, depth 8), hence its own fitting oracle. -/
def train_condition_model_outcome (fitEval : List (List ℚ) → List (Fin 4) → ℚ)
    (features : List (List ℚ)) (labels : List (Fin 4)) : PyOutcome ℚ :=
  match train_model_body fitEval features labels with
  | .ok a => .returns a
  | .error _ => .returns 0

def train_condition_model (fitEval : List (List ℚ) → List (Fin 4) → ℚ)
    (features : List (List ℚ)) (labels : List (Fin 4)) : ℚ :=
  match train_condition_model_outcome fitEval features labels with
  | .returns a => a
  | .raised _ => 0

/-- `auto_train()`: generate 1000 synthetic samples, train both models on the
same feature/SkinType/SkinCondition triples, and succeed only when both
accuracies exceed 0.6. -/
def auto_train (fitEvalT fitEvalC : List (List ℚ) → List (Fin 4) → ℚ)
    (rng : RngState) : Bool :=
  let data := generate_synthetic_data 1000 rng
  let features := data.map (·.features)
  let labels := data.map (·.ty)
  let cond_labels := data.map (·.cond)
  if features.length = 0 then false
  else
    let accuracy_type := train_model fitEvalT features labels
    let accuracy_cond := train_condition_model fitEvalC features cond_labels
    decide (accuracy_type > 3/5) && decide (accuracy_cond > 3/5)

/-! ## Feature extraction (`extract_skin_features`) -/

/-- A BGR pixel (8-bit channels). -/
structure Pixel where
  b : ℕ
  g : ℕ
  r : ℕ

/-- A BGR image as a pixel grid. -/
structure Image where
  rows : ℕ
  cols : ℕ
  pix : ℕ → ℕ → Pixel

/-- `image[y:y+h, x:x+w]` with Python slice clamping semantics (coordinates
nonnegative per the face-detector interface). -/
def cropClamped (img : Image) (x y w h : ℕ) : Image where
  rows := min (y + h) img.rows - min y img.rows
  cols := min (x + w) img.cols - min x img.cols
  pix := fun i j => img.pix (min y img.rows + i) (min x img.cols + j)

/-- A grayscale image. -/
structure GrayImage where
  rows : ℕ
  cols : ℕ
  pix : ℕ → ℕ → ℕ

/-- `cv2.cvtColor(.., COLOR_BGR2GRAY)` on one pixel: OpenCV's fixed-point
formula `(R*4899 + G*9617 + B*1868 + 2^13) >> 14`. -/
def bgr2gray (p : Pixel) : ℕ :=
  (p.r * 4899 + p.g * 9617 + p.b * 1868 + 8192) / 16384

def grayOf (img : Image) : GrayImage :=
  ⟨img.rows, img.cols, fun i j => bgr2gray (img.pix i j)⟩

/-- Number of pixels strictly above `t`: `cv2.threshold(gray, t, 255,
THRESH_BINARY)` sets a pixel to 255 exactly when its value exceeds `t`, and
`cv2.countNonZero` counts those pixels. -/
def countAbove (g : GrayImage) (t : ℕ) : ℕ :=
  ((List.range g.rows).map
    (fun i => ((List.range g.cols).filter (fun j => t < g.pix i j)).length)).sum

/-- `gray.size`, the total pixel count. -/
def graySize (g : GrayImage) : ℕ := g.rows * g.cols

/-- Sum of all grayscale values. -/
def graySum (g : GrayImage) : ℕ :=
  ((List.range g.rows).map (fun i => ((List.range g.cols).map (g.pix i)).sum)).sum

/-- Feature 14, `gray.mean() / 255`. -/
def brightness (g : GrayImage) : ℚ := ((graySum g : ℚ) / (graySize g : ℚ)) / 255

/-- Feature 15, `dark_spots / total_pixels` (threshold 127). -/
def dark_spot_ratio (g : GrayImage) : ℚ := (countAbove g 127 : ℚ) / (graySize g : ℚ)

/-- Feature 16, `oily_areas / total_pixels` (threshold 200). -/
def oily_ratio (g : GrayImage) : ℚ := (countAbove g 200 : ℚ) / (graySize g : ℚ)

/-- The 12 colour-space statistics (HSV/LAB means and standard deviations,
features 0-11) and the 3 filter-based texture statistics (features 12, 13 and
17) of the extractor.  Their numeric values pass through OpenCV colour
conversions, convolution responses and floating square roots; every claim
under verification holds for all values of these statistics, so they enter
the embedding as an arbitrary valuation of the crop rather than being
re-derived from pixel data. -/
structure FloatStats where
  h_mean : ℚ
  s_mean : ℚ
  v_mean : ℚ
  h_std : ℚ
  s_std : ℚ
  v_std : ℚ
  l_mean : ℚ
  a_mean : ℚ
  b_mean : ℚ
  l_std : ℚ
  a_std : ℚ
  b_std : ℚ
  laplacian_var : ℚ
  contrast : ℚ
  texture_complexity : ℚ

/-- `extract_skin_features(image, face_coords)`: crop the face rectangle;
when the crop is empty `cv2.cvtColor` raises, the `except` branch logs and
returns `np.zeros(18, dtype=np.float32)`; otherwise the 18 statistics in the
fixed order of the source.  `stats` is the valuation of the 15 float
statistics (see `FloatStats`). -/
def extract_skin_features (stats : Image → FloatStats) (img : Image)
    (face_coords : ℕ × ℕ × ℕ × ℕ) : List ℚ :=
  let x := face_coords.1
  let y := face_coords.2.1
  let w := face_coords.2.2.1
  let h := face_coords.2.2.2
  let face_roi := cropClamped img x y w h
  if face_roi.rows = 0 ∨ face_roi.cols = 0 then
    List.replicate 18 0
  else
    let s := stats face_roi
    let gray := grayOf face_roi
    [s.h_mean, s.s_mean, s.v_mean, s.h_std, s.s_std, s.v_std,
     s.l_mean, s.a_mean, s.b_mean, s.l_std, s.a_std, s.b_std,
     s.laplacian_var, s.contrast, brightness gray,
     dark_spot_ratio gray, oily_ratio gray, s.texture_complexity]

/-! ## Concrete fixtures used by the witnesses -/

/-- An all-zero valuation of the abstracted float statistics. -/
def zeroStats : Image → FloatStats := fun _ => ⟨0, 0, 0, 0, 0, 0, 0, 0, 0, 0, 0, 0, 0, 0, 0⟩

/-- The empty (0 × 0) image. -/
def emptyImage : Image := ⟨0, 0, fun _ _ => ⟨0, 0, 0⟩⟩

/-- A 1 × 1 black image. -/
def onePixelImage : Image := ⟨1, 1, fun _ _ => ⟨0, 0, 0⟩⟩

/-- A one-tree forest answering the uniform distribution. -/
def uniformForest : Forest := [fun _ _ => (1/4 : ℚ)]

/-- A fitted identity standardizer over 18 features. -/
def idScaler18 : Scaler := ⟨some (List.replicate 18 0, List.replicate 18 1)⟩

/-- A fully trained analyzer state over 18 features. -/
def trainedAnalyzer : SkinAnalyzerState :=
  ⟨some uniformForest, some uniformForest, idScaler18, idScaler18, true, true⟩

/-- An analyzer whose classifiers are present and flagged trained but whose
standardizers lost their fitted statistics (desynchronized persistence). -/
def desyncAnalyzer : SkinAnalyzerState :=
  ⟨some uniformForest, some uniformForest, ⟨none⟩, ⟨none⟩, true, true⟩

/-- The all-zero 18-feature row. -/
def zeros18 : List ℚ := List.replicate 18 0

/-- A default prediction payload (used only to extract results in
witnesses). -/
def defaultPred : PredResult := ⟨0, 0, fun _ => 0⟩

/-! ## Counting lemmas for the generator -/

theorem length_genStratum (ty cond : Fin 4) (k : ℕ) (st : RngState) :
    (genStratum ty cond k st).1.length = k := by
  induction k generalizing st with
  | zero => rfl
  | succ n ih => simp [genStratum, ih]

theorem mem_genStratum (ty cond : Fin 4) (k : ℕ) (st : RngState) (s : Sample)
    (hs : s ∈ (genStratum ty cond k st).1) :
    ∃ noise, s = ⟨make_sample ty cond noise, ty, cond⟩ := by
  induction k generalizing st with
  | zero => simp [genStratum] at hs
  | succ n ih =>
    simp only [genStratum, List.mem_cons] at hs
    rcases hs with h | h
    · exact ⟨_, h⟩
    · exact ih _ h

theorem countStratum_genStratum (ty cond t c : Fin 4) (k : ℕ) (st : RngState) :
    ((genStratum ty cond k st).1.filter (inStratum t c)).length
      = if t = ty ∧ c = cond then k else 0 := by
  induction k generalizing st with
  | zero => simp [genStratum]
  | succ n ih =>
    simp only [genStratum, List.filter_cons]
    by_cases h : t = ty ∧ c = cond
    · obtain ⟨rfl, rfl⟩ := h
      simp [inStratum, ih]
    · have hhead : inStratum t c
          ⟨make_sample ty cond (normalVec (noise_scale ty) 18 st).1, ty, cond⟩ = false := by
        simp only [inStratum, Bool.and_eq_false_iff, decide_eq_false_iff_not]
        by_cases h1 : ty = t
        · exact Or.inr (fun h2 => h ⟨h1.symm, h2.symm⟩)
        · exact Or.inl h1
      simp [hhead, ih, h]

theorem length_genType (ty : Fin 4) (cnt : ℕ) (st : RngState) :
    (genType ty cnt st).1.length = 4 * cnt := by
  simp [genType, length_genStratum]
  omega

theorem countStratum_genType (ty t c : Fin 4) (cnt : ℕ) (st : RngState) :
    ((genType ty cnt st).1.filter (inStratum t c)).length
      = if t = ty then cnt else 0 := by
  simp only [genType, List.filter_append, List.length_append, countStratum_genStratum]
  by_cases h : t = ty
  · subst h
    fin_cases c <;> simp
  · simp [h]

theorem length_generate (n : ℕ) (rng : RngState) :
    (generate_synthetic_data n rng).length = 16 * (n / 16) := by
  simp only [generate_synthetic_data, List.length_append, length_genType]
  have : n / 4 / 4 = n / 16 := by
    rw [Nat.div_div_eq_div_mul]
  omega

theorem countStratum_generate (n : ℕ) (rng : RngState) (t c : Fin 4) :
    ((generate_synthetic_data n rng).filter (inStratum t c)).length = n / 16 := by
  simp only [generate_synthetic_data, List.filter_append, List.length_append,
    countStratum_genType]
  have : n / 4 / 4 = n / 16 := by
    rw [Nat.div_div_eq_div_mul]
  fin_cases t <;> simp <;> omega

/-- C3: for every sample count `n`, `generate_synthetic_data` produces exactly
`n / 16` samples for each of the 16 (SkinType × SkinCondition) strata, hence
`16 * (n / 16)` samples in total (remainder dropped); in particular `n = 1000`
yields 62 samples per stratum and 992 in total. -/
theorem generate_stratification (n : ℕ) (rng : RngState) :
    (∀ t c : Fin 4,
        ((generate_synthetic_data n rng).filter (inStratum t c)).length = n / 16)
      ∧ (generate_synthetic_data n rng).length = 16 * (n / 16)
      ∧ (n = 1000 →
          (∀ t c : Fin 4,
            ((generate_synthetic_data n rng).filter (inStratum t c)).length = 62)
            ∧ (generate_synthetic_data n rng).length = 992) := by
  refine ⟨fun t c => countStratum_generate n rng t c, length_generate n rng, ?_⟩
  rintro rfl
  exact ⟨fun t c => countStratum_generate 1000 rng t c, length_generate 1000 rng⟩

/-- Witness for C3 at the concrete count 1000. -/
theorem generate_stratification_witness :
    ((1000 : ℕ) = 1000)
      ∧ (((generate_synthetic_data 1000 ⟨0⟩).filter (inStratum 0 0)).length = 62
          ∧ (generate_synthetic_data 1000 ⟨0⟩).length = 992) :=
  ⟨rfl, ((generate_stratification 1000 ⟨0⟩).2.2 rfl).1 0 0,
    ((generate_stratification 1000 ⟨0⟩).2.2 rfl).2⟩

/-! ## Per-sample structure and bounds -/

theorem clip01_nonneg (x : ℚ) : 0 ≤ clip01 x :=
  le_min (by norm_num) (le_max_right _ _)

theorem clip01_le_one (x : ℚ) : clip01 x ≤ 1 :=
  min_le_left _ _

theorem mem_zipWith_clip_bounds (l1 l2 : List ℚ) (x : ℚ)
    (hx : x ∈ List.zipWith (fun b n => clip01 (b + n)) l1 l2) :
    0 ≤ x ∧ x ≤ 1 := by
  induction l1 generalizing l2 with
  | nil => simp at hx
  | cons a l ih =>
    cases l2 with
    | nil => simp at hx
    | cons b l2 =>
      simp only [List.zipWith_cons_cons, List.mem_cons] at hx
      rcases hx with rfl | hx
      · exact ⟨clip01_nonneg _, clip01_le_one _⟩
      · exact ih _ hx

theorem make_sample_getD_bounds (ty cond : Fin 4) (noise : List ℚ) (i : ℕ) :
    0 ≤ (make_sample ty cond noise).getD i 0
      ∧ (make_sample ty cond noise).getD i 0 ≤ 1 := by
  by_cases h : i < (make_sample ty cond noise).length
  · have hmem : (make_sample ty cond noise).getD i 0 ∈ make_sample ty cond noise := by
      rw [List.getD_eq_getElem _ _ h]
      exact List.getElem_mem h
    exact mem_zipWith_clip_bounds _ _ _ hmem
  · have : (make_sample ty cond noise).getD i 0 = 0 := by
      simp [List.getD_eq_getElem?_getD, List.getElem?_eq_none (Nat.le_of_not_lt h)]
    rw [this]
    norm_num

theorem mem_generate (n : ℕ) (rng : RngState) (s : Sample)
    (hs : s ∈ generate_synthetic_data n rng) :
    ∃ ty cond noise, s = ⟨make_sample ty cond noise, ty, cond⟩ := by
  simp only [generate_synthetic_data, genType, List.mem_append] at hs
  rcases hs with
      ((h|h|h|h)|(h|h|h|h)|(h|h|h|h)|(h|h|h|h)) <;>
    · obtain ⟨noise, hn⟩ := mem_genStratum _ _ _ _ _ h
      exact ⟨_, _, noise, hn⟩

theorem bumpAt_getD_self (l : List ℚ) (j : ℕ) (d : ℚ) (h : j < l.length) :
    (bumpAt j d l).getD j 0 = l.getD j 0 + d := by
  unfold bumpAt
  rw [List.getD_eq_getElem _ _ (by simpa using h)]
  simp

theorem bumpAt_getD_ne (l : List ℚ) (j : ℕ) (d : ℚ) (i : ℕ) (hi : i ≠ j) :
    (bumpAt j d l).getD i 0 = l.getD i 0 := by
  unfold bumpAt
  simp [List.getD_eq_getElem?_getD, List.getElem?_set_ne (Ne.symm hi)]

/-- C4: every synthetic sample is the SkinType prototype, perturbed by the
SkinCondition (Acne bumps dimension 15 by +0.2, PigmentationSpots dimension
13, EnlargedPores dimension 17, Normal nothing), then per-dimension noise
drawn with the SkinType-specific scale (dry 0.10, oily 0.10, combination
0.15, sensitive 0.12), then clamped to [0, 1]; hence every dimension of every
generated sample lies in [0, 1]. -/
theorem generate_sample_bounds_and_structure (n : ℕ) (rng : RngState) (s : Sample)
    (hs : s ∈ generate_synthetic_data n rng) :
    (∀ i : ℕ, 0 ≤ s.features.getD i 0 ∧ s.features.getD i 0 ≤ 1)
      ∧ (∃ noise, s.features =
          List.zipWith (fun b z => clip01 (b + z))
            (cond_adjust s.cond (base_features s.ty)) noise)
      ∧ (∀ l : List ℚ, l.length = 18 →
          cond_adjust 0 l = l
            ∧ (cond_adjust 1 l).getD 15 0 = l.getD 15 0 + 1/5
            ∧ (cond_adjust 2 l).getD 13 0 = l.getD 13 0 + 1/5
            ∧ (cond_adjust 3 l).getD 17 0 = l.getD 17 0 + 1/5
            ∧ (∀ i : ℕ, i ≠ 15 → (cond_adjust 1 l).getD i 0 = l.getD i 0)
            ∧ (∀ i : ℕ, i ≠ 13 → (cond_adjust 2 l).getD i 0 = l.getD i 0)
            ∧ (∀ i : ℕ, i ≠ 17 → (cond_adjust 3 l).getD i 0 = l.getD i 0))
      ∧ noise_scale 0 = 1/10 ∧ noise_scale 1 = 1/10
      ∧ noise_scale 2 = 3/20 ∧ noise_scale 3 = 3/25 := by
  obtain ⟨ty, cond, noise, rfl⟩ := mem_generate n rng s hs
  refine ⟨fun i => make_sample_getD_bounds ty cond noise i,
    ⟨noise, rfl⟩, fun l hl => ?_, rfl, rfl, rfl, rfl⟩
  refine ⟨rfl,
    bumpAt_getD_self l 15 (1/5) (by omega),
    bumpAt_getD_self l 13 (1/5) (by omega),
    bumpAt_getD_self l 17 (1/5) (by omega),
    fun i hi => bumpAt_getD_ne l 15 (1/5) i hi,
    fun i hi => bumpAt_getD_ne l 13 (1/5) i hi,
    fun i hi => bumpAt_getD_ne l 17 (1/5) i hi⟩

/-- Witness for C4: the first sample generated for `n = 16`. -/
theorem generate_sample_bounds_and_structure_witness :
    ((generate_synthetic_data 16 ⟨0⟩).headD default ∈ generate_synthetic_data 16 ⟨0⟩)
      ∧ (∀ i : ℕ,
          0 ≤ ((generate_synthetic_data 16 ⟨0⟩).headD default).features.getD i 0
            ∧ ((generate_synthetic_data 16 ⟨0⟩).headD default).features.getD i 0 ≤ 1) := by
  have hne : generate_synthetic_data 16 ⟨0⟩ ≠ [] := by
    intro hnil
    have := length_generate 16 ⟨0⟩
    rw [hnil] at this
    simp at this
  have hmem : (generate_synthetic_data 16 ⟨0⟩).headD default
      ∈ generate_synthetic_data 16 ⟨0⟩ := by
    cases hl : generate_synthetic_data 16 ⟨0⟩ with
    | nil => exact absurd hl hne
    | cons a t => exact List.mem_cons_self a t
  exact ⟨hmem,
    (generate_sample_bounds_and_structure 16 ⟨0⟩ _ hmem).1⟩

/-! ## Determinism of the generator (C8)

The source's `generate_synthetic_data` begins with `np.random.seed(42)`, a
hardcoded reseed of the global generator.  Consequently the produced dataset
does not depend on the ambient random state at all: two runs under the same
external seed are identical, but so are two runs under different external
seeds — the caller cannot obtain a differing sample by changing the seed. -/

/-- Counterexample to C8 as stated: seeding the ambient state differently
(seeds 0 and 1) still yields exactly the same 992 samples, because the
generator reseeds internally with the fixed seed 42. -/
theorem generate_seed_counterexample :
    npSeed 0 ≠ npSeed 1
      ∧ generate_synthetic_data 1000 (npSeed 0)
          = generate_synthetic_data 1000 (npSeed 1) :=
  ⟨by decide, rfl⟩

/-- C8 amended: the generator is deterministic but not caller-seedable — it
overwrites the ambient random state with the fixed seed 42, so any two runs
(same external seed or different external seeds) yield identical samples. -/
theorem generate_deterministic (n : ℕ) (r1 r2 : RngState) :
    generate_synthetic_data n r1 = generate_synthetic_data n r2 := rfl

/-! ## Feature extraction theorems (C1, C10) -/

theorem extract_eq_of_nonempty (stats : Image → FloatStats) (img : Image)
    (x y w h : ℕ)
    (hne : ¬((cropClamped img x y w h).rows = 0 ∨ (cropClamped img x y w h).cols = 0)) :
    extract_skin_features stats img (x, y, w, h)
      = [(stats (cropClamped img x y w h)).h_mean,
         (stats (cropClamped img x y w h)).s_mean,
         (stats (cropClamped img x y w h)).v_mean,
         (stats (cropClamped img x y w h)).h_std,
         (stats (cropClamped img x y w h)).s_std,
         (stats (cropClamped img x y w h)).v_std,
         (stats (cropClamped img x y w h)).l_mean,
         (stats (cropClamped img x y w h)).a_mean,
         (stats (cropClamped img x y w h)).b_mean,
         (stats (cropClamped img x y w h)).l_std,
         (stats (cropClamped img x y w h)).a_std,
         (stats (cropClamped img x y w h)).b_std,
         (stats (cropClamped img x y w h)).laplacian_var,
         (stats (cropClamped img x y w h)).contrast,
         brightness (grayOf (cropClamped img x y w h)),
         dark_spot_ratio (grayOf (cropClamped img x y w h)),
         oily_ratio (grayOf (cropClamped img x y w h)),
         (stats (cropClamped img x y w h)).texture_complexity] := by
  simp only [extract_skin_features]
  rw [if_neg hne]

/-- C1: for every image and face rectangle, `extract_skin_features` returns a
vector of exactly 18 values and never raises; when the crop is empty after
clamping (the case in which the colour conversion fails), it returns the
all-zero 18-vector as a defined fallback. -/
theorem extract_shape_and_fallback (stats : Image → FloatStats) (img : Image)
    (fc : ℕ × ℕ × ℕ × ℕ) :
    (extract_skin_features stats img fc).length = 18
      ∧ (((cropClamped img fc.1 fc.2.1 fc.2.2.1 fc.2.2.2).rows = 0
            ∨ (cropClamped img fc.1 fc.2.1 fc.2.2.1 fc.2.2.2).cols = 0) →
          extract_skin_features stats img fc = List.replicate 18 0) := by
  obtain ⟨x, y, w, h⟩ := fc
  by_cases hc : (cropClamped img x y w h).rows = 0 ∨ (cropClamped img x y w h).cols = 0
  · constructor
    · simp only [extract_skin_features]
      rw [if_pos hc]
      simp
    · intro _
      simp only [extract_skin_features]
      rw [if_pos hc]
  · rw [extract_eq_of_nonempty stats img x y w h hc]
    exact ⟨rfl, fun hcc => absurd hcc hc⟩

/-- Witness for C1: the empty image with any rectangle gives an empty crop,
an 18-entry result, and the zero fallback. -/
theorem extract_shape_and_fallback_witness :
    ((cropClamped emptyImage 0 0 5 5).rows = 0
        ∨ (cropClamped emptyImage 0 0 5 5).cols = 0)
      ∧ (extract_skin_features zeroStats emptyImage (0, 0, 5, 5)).length = 18
      ∧ extract_skin_features zeroStats emptyImage (0, 0, 5, 5)
          = List.replicate 18 0 :=
  ⟨Or.inl rfl,
    (extract_shape_and_fallback zeroStats emptyImage (0, 0, 5, 5)).1,
    (extract_shape_and_fallback zeroStats emptyImage (0, 0, 5, 5)).2 (Or.inl rfl)⟩

theorem length_filter_mono {α : Type} (l : List α) (p q : α → Bool)
    (h : ∀ a ∈ l, p a = true → q a = true) :
    (l.filter p).length ≤ (l.filter q).length := by
  induction l with
  | nil => simp
  | cons a t ih =>
    simp only [List.filter_cons]
    by_cases hp : p a = true
    · rw [if_pos hp, if_pos (h a (List.mem_cons_self a t) hp)]
      simpa using ih (fun x hx => h x (List.mem_cons_of_mem a hx))
    · rw [if_neg hp]
      have := ih (fun x hx => h x (List.mem_cons_of_mem a hx))
      by_cases hq : q a = true
      · rw [if_pos hq]; simp; omega
      · rw [if_neg hq]; exact this

theorem countAbove_mono (g : GrayImage) (t1 t2 : ℕ) (h : t1 ≤ t2) :
    countAbove g t2 ≤ countAbove g t1 := by
  unfold countAbove
  apply List.sum_le_sum
  intro i _
  apply length_filter_mono
  intro j _ hj
  simp only [decide_eq_true_eq] at hj ⊢
  omega

/-- C10: whenever extraction succeeds (nonempty crop), feature 16 (the
oily-area ratio, pixels above 200) is at most feature 15 (the dark-spot
ratio, pixels above 127), because pixels above 200 are also above 127. -/
theorem extract_oily_le_dark (stats : Image → FloatStats) (img : Image)
    (x y w h : ℕ)
    (hr : (cropClamped img x y w h).rows ≠ 0)
    (hc : (cropClamped img x y w h).cols ≠ 0) :
    (extract_skin_features stats img (x, y, w, h)).getD 16 0
      ≤ (extract_skin_features stats img (x, y, w, h)).getD 15 0 := by
  have hne : ¬((cropClamped img x y w h).rows = 0
      ∨ (cropClamped img x y w h).cols = 0) := by tauto
  rw [extract_eq_of_nonempty stats img x y w h hne]
  show oily_ratio (grayOf (cropClamped img x y w h))
      ≤ dark_spot_ratio (grayOf (cropClamped img x y w h))
  unfold oily_ratio dark_spot_ratio
  have hpos : (0 : ℚ) < (graySize (grayOf (cropClamped img x y w h)) : ℚ) := by
    have : graySize (grayOf (cropClamped img x y w h)) ≠ 0 := by
      simp only [graySize, grayOf]
      exact Nat.mul_ne_zero hr hc
    exact_mod_cast Nat.pos_of_ne_zero this
  rw [div_le_div_iff_of_pos_right hpos]
  exact_mod_cast countAbove_mono _ 127 200 (by norm_num)

/-- Witness for C10: a 1 × 1 image with the full-frame rectangle. -/
theorem extract_oily_le_dark_witness :
    ((cropClamped onePixelImage 0 0 1 1).rows ≠ 0
        ∧ (cropClamped onePixelImage 0 0 1 1).cols ≠ 0)
      ∧ (extract_skin_features zeroStats onePixelImage (0, 0, 1, 1)).getD 16 0
          ≤ (extract_skin_features zeroStats onePixelImage (0, 0, 1, 1)).getD 15 0 :=
  ⟨⟨by decide, by decide⟩,
    extract_oily_le_dark zeroStats onePixelImage 0 0 1 1 (by decide) (by decide)⟩

/-! ## Predictor fail-fast theorems (C5) -/

/-- C5: `predict` fails with the model-not-trained error whenever no
classifier is loaded (in particular on a freshly constructed analyzer), and
with the scaler-not-fitted error whenever a classifier is present and flagged
trained but the standardizer lacks fitted statistics; both are explicit typed
failures returned to the caller, never a silently guessed label. -/
theorem predict_fail_fast (A : SkinAnalyzerState) (x : NpArr) :
    ((A.is_trained = false ∨ A.model = none) →
        predict_skin_type A x = .error .modelNotTrained)
      ∧ (∀ m : Forest, A.model = some m → A.is_trained = true →
          A.scaler.fitted = none →
          predict_skin_type A x = .error .scalerNotFitted)
      ∧ ((A.is_cond_trained = false ∨ A.cond_model = none) →
          predict_skin_condition A x = .error .modelNotTrained)
      ∧ (∀ m : Forest, A.cond_model = some m → A.is_cond_trained = true →
          A.cond_scaler.fitted = none →
          predict_skin_condition A x = .error .scalerNotFitted)
      ∧ predict_skin_type freshAnalyzer x = .error .modelNotTrained
      ∧ predict_skin_condition freshAnalyzer x = .error .modelNotTrained := by
  refine ⟨?_, ?_, ?_, ?_, rfl, rfl⟩
  · rintro (h | h)
    · cases hm : A.model with
      | none => simp [predict_skin_type, hm]
      | some m => simp [predict_skin_type, hm, h]
    · simp [predict_skin_type, h]
  · intro m hm ht hs
    simp [predict_skin_type, hm, ht, hs]
  · rintro (h | h)
    · cases hm : A.cond_model with
      | none => simp [predict_skin_condition, hm]
      | some m => simp [predict_skin_condition, hm, h]
    · simp [predict_skin_condition, h]
  · intro m hm ht hs
    simp [predict_skin_condition, hm, ht, hs]

/-- Witness for C5: the fresh analyzer fails with the model error, the
desynchronized analyzer (model present, scaler unfitted) with the scaler
error. -/
theorem predict_fail_fast_witness :
    (freshAnalyzer.is_trained = false ∨ freshAnalyzer.model = none)
      ∧ predict_skin_type freshAnalyzer (.one zeros18) = .error .modelNotTrained
      ∧ (desyncAnalyzer.model = some uniformForest
          ∧ desyncAnalyzer.is_trained = true
          ∧ desyncAnalyzer.scaler.fitted = none)
      ∧ predict_skin_type desyncAnalyzer (.one zeros18) = .error .scalerNotFitted
      ∧ predict_skin_condition desyncAnalyzer (.one zeros18) = .error .scalerNotFitted :=
  ⟨Or.inl rfl,
    (predict_fail_fast freshAnalyzer (.one zeros18)).1 (Or.inl rfl),
    ⟨rfl, rfl, rfl⟩,
    (predict_fail_fast desyncAnalyzer (.one zeros18)).2.1 uniformForest rfl rfl rfl,
    (predict_fail_fast desyncAnalyzer (.one zeros18)).2.2.2.1 uniformForest rfl rfl rfl⟩

/-! ## Training error handling (C6)

`train_model` wraps its whole body — including the stratified
`train_test_split` — in `try/except Exception`, whose handler logs the
exception and returns `0.0`.  So the split failure on an underpopulated class
is raised *inside* the function but never reaches the caller. -/

theorem stratifyOk_eq_false (labels : List (Fin 4)) (c : Fin 4)
    (h1 : 0 < labels.count c) (h2 : labels.count c < 2) :
    stratifyOk labels = false := by
  unfold stratifyOk
  rw [List.all_eq_false]
  refine ⟨c, List.mem_finRange c, ?_⟩
  simp only [Bool.or_eq_true, beq_iff_eq, decide_eq_true_eq, not_or]
  omega

/-- Counterexample to C6 as stated: with labels `[0, 0, 1]` class 1 has a
single sample, so the stratified split fails — but the caller of
`train_model` observes the returned accuracy `0.0`, not a propagated
`InsufficientDataError`. -/
theorem train_error_swallowed_counterexample :
    (0 < ([0, 0, 1] : List (Fin 4)).count 1
        ∧ ([0, 0, 1] : List (Fin 4)).count 1 < 2)
      ∧ train_model_outcome (fun _ _ => 1) [] [0, 0, 1]
          ≠ PyOutcome.raised TrainError.insufficientData
      ∧ train_model_outcome (fun _ _ => 1) [] [0, 0, 1] = PyOutcome.returns 0 :=
  ⟨by decide, by decide, by decide⟩

/-- C6 amended: whenever some class present in the labels has fewer than 2
samples, the stratified split fails with `InsufficientDataError` inside the
training body, but `train_model`'s `try/except` catches every exception, logs
it, and returns accuracy `0.0` — the caller sees a returned `0.0`, not a
propagated typed failure (likewise for `train_condition_model`). -/
theorem train_insufficient_data_caught
    (fitEval : List (List ℚ) → List (Fin 4) → ℚ)
    (features : List (List ℚ)) (labels : List (Fin 4)) (c : Fin 4)
    (h1 : 0 < labels.count c) (h2 : labels.count c < 2) :
    train_model_body fitEval features labels = .error .insufficientData
      ∧ train_model_outcome fitEval features labels = .returns 0
      ∧ train_model fitEval features labels = 0
      ∧ train_condition_model_outcome fitEval features labels = .returns 0
      ∧ train_condition_model fitEval features labels = 0 := by
  have hso := stratifyOk_eq_false labels c h1 h2
  simp [train_model_body, train_model_outcome, train_model,
    train_condition_model_outcome, train_condition_model, hso]

/-- Witness for C6 (amended) at the concrete labels `[0, 0, 1]`. -/
theorem train_insufficient_data_caught_witness :
    (0 < ([0, 0, 1] : List (Fin 4)).count 1
        ∧ ([0, 0, 1] : List (Fin 4)).count 1 < 2)
      ∧ train_model_body (fun _ _ => 1) [] [0, 0, 1] = .error .insufficientData
      ∧ train_model (fun _ _ => 1) [] [0, 0, 1] = 0 :=
  ⟨by decide,
    (train_insufficient_data_caught (fun _ _ => 1) [] [0, 0, 1] 1
      (by decide) (by decide)).1,
    (train_insufficient_data_caught (fun _ _ => 1) [] [0, 0, 1] 1
      (by decide) (by decide)).2.2.1⟩

/-! ## Probability mass of predictions (C7) -/

theorem sum_swap_forest (m : Forest) (x : List ℚ) :
    ∑ c : Fin 4, (m.map (fun t => t x c)).sum
      = (m.map (fun t => ∑ c : Fin 4, t x c)).sum := by
  induction m with
  | nil => simp
  | cons t m ih =>
    simp only [List.map_cons, List.sum_cons]
    rw [Finset.sum_add_distrib, ih]

theorem sum_trees_length (m : Forest) (x : List ℚ)
    (hdist : ∀ t ∈ m, ∑ c : Fin 4, t x c = 1) :
    (m.map (fun t => ∑ c : Fin 4, t x c)).sum = (m.length : ℚ) := by
  induction m with
  | nil => simp
  | cons t m ih =>
    simp only [List.map_cons, List.sum_cons, List.length_cons]
    rw [hdist t (List.mem_cons_self t m),
      ih (fun u hu => hdist u (List.mem_cons_of_mem t hu))]
    push_cast
    ring

theorem sum_predict_proba (m : Forest) (x : List ℚ) (hne : m ≠ [])
    (hdist : ∀ t ∈ m, ∑ c : Fin 4, t x c = 1) :
    ∑ c : Fin 4, predict_proba m x c = 1 := by
  unfold predict_proba
  rw [← Finset.sum_div, sum_swap_forest, sum_trees_length m x hdist]
  have hlen : (m.length : ℚ) ≠ 0 := by
    have : m.length ≠ 0 := fun h => hne (List.length_eq_zero.mp h)
    exact_mod_cast this
  exact div_self hlen

theorem le_argmaxF (p : ProbVec) (i : Fin 4) : p i ≤ p (argmaxF p) := by
  have h0 : p 0 ≤ p (argmaxF p) := by
    simp only [argmaxF]; split_ifs <;> linarith
  have h1 : p 1 ≤ p (argmaxF p) := by
    simp only [argmaxF]; split_ifs <;> linarith
  have h2 : p 2 ≤ p (argmaxF p) := by
    simp only [argmaxF]; split_ifs <;> linarith
  have h3 : p 3 ≤ p (argmaxF p) := by
    simp only [argmaxF]; split_ifs <;> linarith
  fin_cases i
  · exact h0
  · exact h1
  · exact h2
  · exact h3

theorem le_maxF (p : ProbVec) (i : Fin 4) : p i ≤ maxF p := by
  fin_cases i <;> simp [maxF, le_max_iff, le_refl]

theorem maxF_eq_argmax (p : ProbVec) : maxF p = p (argmaxF p) := by
  refine le_antisymm ?_ (le_maxF p (argmaxF p))
  unfold maxF
  exact max_le (max_le (max_le (le_argmaxF p 0) (le_argmaxF p 1))
    (le_argmaxF p 2)) (le_argmaxF p 3)

theorem predict_skin_type_ok_inv (A : SkinAnalyzerState) (m : Forest)
    (x : NpArr) (r : PredResult) (hm : A.model = some m)
    (hr : predict_skin_type A x = .ok r) :
    ∃ rows, A.scaler.transform (reshape1m1 x) = .ok rows
      ∧ r = ⟨rf_predict m (rows.headD []),
             predict_proba m (rows.headD []) (rf_predict m (rows.headD [])),
             predict_proba m (rows.headD [])⟩ := by
  unfold predict_skin_type at hr
  rw [hm] at hr
  cases ht : A.is_trained with
  | false => rw [ht] at hr; exact absurd hr (by simp)
  | true =>
    rw [ht] at hr
    dsimp only at hr
    by_cases hsf : (A.scaler.fitted).isNone
    · rw [if_pos hsf] at hr; exact absurd hr (by simp)
    · rw [if_neg hsf] at hr
      cases htr : A.scaler.transform (reshape1m1 x) with
      | error e => rw [htr] at hr; exact absurd hr (by simp)
      | ok rows =>
        rw [htr] at hr
        exact ⟨rows, rfl, (Except.ok.inj hr).symm⟩

theorem predict_skin_condition_ok_inv (A : SkinAnalyzerState) (m : Forest)
    (x : NpArr) (r : PredResult) (hm : A.cond_model = some m)
    (hr : predict_skin_condition A x = .ok r) :
    ∃ rows, A.cond_scaler.transform x = .ok rows
      ∧ r = ⟨rf_predict m (rows.headD []),
             maxF (predict_proba m (rows.headD [])),
             predict_proba m (rows.headD [])⟩ := by
  unfold predict_skin_condition at hr
  rw [hm] at hr
  cases ht : A.is_cond_trained with
  | false => rw [ht] at hr; exact absurd hr (by simp)
  | true =>
    rw [ht] at hr
    dsimp only at hr
    by_cases hsf : (A.cond_scaler.fitted).isNone
    · rw [if_pos hsf] at hr; exact absurd hr (by simp)
    · rw [if_neg hsf] at hr
      cases htr : A.cond_scaler.transform x with
      | error e => rw [htr] at hr; exact absurd hr (by simp)
      | ok rows =>
        rw [htr] at hr
        exact ⟨rows, rfl, (Except.ok.inj hr).symm⟩

/-- C7: for any trained classifier — a nonempty fitted forest whose trees
each answer a normalized distribution — and any accepted input, the
probability distribution returned by either predictor ranges over exactly the
4 classes, sums to 1 (hence is within 1e-6 of 1.0), and the confidence is the
probability mass on the arg-max class, which is the predicted label. -/
theorem predict_probability_mass (m : Forest) (hne : m ≠ [])
    (hdist : ∀ t ∈ m, ∀ row : List ℚ, ∑ c : Fin 4, t row c = 1) :
    (∀ (A : SkinAnalyzerState) (x : NpArr) (r : PredResult),
        A.model = some m → predict_skin_type A x = .ok r →
          (Finset.univ : Finset (Fin 4)).card = 4
            ∧ ∑ c : Fin 4, r.probs c = 1
            ∧ |(∑ c : Fin 4, r.probs c) - 1| ≤ 1 / 1000000
            ∧ r.label = argmaxF r.probs
            ∧ r.confidence = r.probs (argmaxF r.probs))
      ∧ (∀ (A : SkinAnalyzerState) (x : NpArr) (r : PredResult),
          A.cond_model = some m → predict_skin_condition A x = .ok r →
            (Finset.univ : Finset (Fin 4)).card = 4
              ∧ ∑ c : Fin 4, r.probs c = 1
              ∧ |(∑ c : Fin 4, r.probs c) - 1| ≤ 1 / 1000000
              ∧ r.label = argmaxF r.probs
              ∧ r.confidence = r.probs (argmaxF r.probs)) := by
  constructor
  · intro A x r hm hr
    obtain ⟨rows, _, rfl⟩ := predict_skin_type_ok_inv A m x r hm hr
    have hsum := sum_predict_proba m (rows.headD []) hne (fun t ht => hdist t ht _)
    exact ⟨rfl, hsum, by rw [hsum]; norm_num, rfl, rfl⟩
  · intro A x r hm hr
    obtain ⟨rows, _, rfl⟩ := predict_skin_condition_ok_inv A m x r hm hr
    have hsum := sum_predict_proba m (rows.headD []) hne (fun t ht => hdist t ht _)
    exact ⟨rfl, hsum, by rw [hsum]; norm_num, rfl, maxF_eq_argmax _⟩

/-- Witness for C7: the one-tree uniform forest inside the concrete trained
analyzer, evaluated on the zero row. -/
theorem predict_probability_mass_witness :
    (uniformForest ≠ []
        ∧ (∀ t ∈ uniformForest, ∀ row : List ℚ, ∑ c : Fin 4, t row c = 1)
        ∧ trainedAnalyzer.model = some uniformForest
        ∧ predict_skin_type trainedAnalyzer (.one zeros18)
            = .ok ((predict_skin_type trainedAnalyzer
                (.one zeros18)).toOption.getD defaultPred))
      ∧ ∑ c : Fin 4,
          ((predict_skin_type trainedAnalyzer
            (.one zeros18)).toOption.getD defaultPred).probs c = 1 := by
  have hne : uniformForest ≠ [] := by simp [uniformForest]
  have hdist : ∀ t ∈ uniformForest, ∀ row : List ℚ, ∑ c : Fin 4, t row c = 1 := by
    intro t ht row
    simp only [uniformForest, List.mem_singleton] at ht
    subst ht
    rw [Fin.sum_univ_four]
    norm_num
  have hok : predict_skin_type trainedAnalyzer (.one zeros18)
      = .ok ((predict_skin_type trainedAnalyzer
          (.one zeros18)).toOption.getD defaultPred) := rfl
  exact ⟨⟨hne, hdist, rfl, hok⟩,
    ((predict_probability_mass uniformForest hne hdist).1 trainedAnalyzer
      (.one zeros18) _ rfl hok).2.1⟩

/-! ## Input shapes accepted by the predictors (C9) -/

theorem transform_one (mean scale : List ℚ) (v : List ℚ) :
    Scaler.transform ⟨some (mean, scale)⟩ (.one v)
      = .error (.other expected2DMsg) := rfl

theorem transform_ok_two (mean scale : List ℚ) (rows : List (List ℚ)) :
    (∃ out, Scaler.transform ⟨some (mean, scale)⟩ (.two rows) = .ok out)
      ↔ (rows ≠ [] ∧ ∀ r ∈ rows, r.length = mean.length) := by
  simp only [Scaler.transform]
  by_cases h1 : rows.isEmpty
  · rw [if_pos h1]
    simp [List.isEmpty_iff.mp h1]
  · rw [if_neg h1]
    have hne : rows ≠ [] := fun hh => h1 (by simp [hh])
    by_cases h2 : rows.all (fun r => r.length == mean.length)
    · rw [if_pos h2]
      simp only [List.all_eq_true, beq_iff_eq] at h2
      exact iff_of_true ⟨_, rfl⟩ ⟨hne, h2⟩
    · rw [if_neg h2]
      refine iff_of_false (by simp) ?_
      rintro ⟨-, hall⟩
      exact h2 (List.all_eq_true.mpr fun r hr => beq_iff_eq.mpr (hall r hr))

theorem predict_skin_type_ok_iff (A : SkinAnalyzerState) (m : Forest)
    (x : NpArr) (hm : A.model = some m) (ht : A.is_trained = true)
    (hsf : (A.scaler.fitted).isNone = false) :
    (∃ r, predict_skin_type A x = .ok r)
      ↔ (∃ out, A.scaler.transform (reshape1m1 x) = .ok out) := by
  unfold predict_skin_type
  rw [hm, ht]
  dsimp only
  rw [if_neg (by simp [hsf])]
  cases htr : A.scaler.transform (reshape1m1 x) with
  | error e => simp
  | ok rows => simp

theorem predict_skin_condition_ok_iff (A : SkinAnalyzerState) (m : Forest)
    (x : NpArr) (hm : A.cond_model = some m) (ht : A.is_cond_trained = true)
    (hsf : (A.cond_scaler.fitted).isNone = false) :
    (∃ r, predict_skin_condition A x = .ok r)
      ↔ (∃ out, A.cond_scaler.transform x = .ok out) := by
  unfold predict_skin_condition
  rw [hm, ht]
  dsimp only
  rw [if_neg (by simp [hsf])]
  cases htr : A.cond_scaler.transform x with
  | error e => simp
  | ok rows => simp

theorem flatten_length_of_all (rows : List (List ℚ)) (k : ℕ)
    (h : ∀ r ∈ rows, r.length = k) :
    rows.flatten.length = k * rows.length := by
  induction rows with
  | nil => simp
  | cons r t ih =>
    simp only [List.flatten_cons, List.length_append, List.length_cons]
    rw [h r (List.mem_cons_self r t), ih (fun u hu => h u (List.mem_cons_of_mem r hu))]
    ring

/-- C9: the two predictors accept different input shapes — `predict_skin_type`
reshapes its argument to one row and therefore accepts a flat 18-vector,
while `predict_skin_condition` hands its argument to the standardizer
unreshaped, so a flat vector yields an error result; the two predictors
succeed together exactly when the input is a 2-D (1, 18) array. -/
theorem predict_input_shapes (A : SkinAnalyzerState) (m mc : Forest)
    (mean scale meanC scaleC : List ℚ)
    (hm : A.model = some m) (ht : A.is_trained = true)
    (hmc : A.cond_model = some mc) (htc : A.is_cond_trained = true)
    (hs : A.scaler.fitted = some (mean, scale)) (hlen : mean.length = 18)
    (hsc : A.cond_scaler.fitted = some (meanC, scaleC)) (hlenC : meanC.length = 18) :
    (∀ v : List ℚ, v.length = 18 → ∃ r, predict_skin_type A (.one v) = .ok r)
      ∧ (∀ v : List ℚ,
          predict_skin_condition A (.one v) = .error (.other expected2DMsg))
      ∧ ∀ a : NpArr,
          ((∃ r, predict_skin_type A a = .ok r)
              ∧ (∃ r, predict_skin_condition A a = .ok r))
            ↔ ∃ row : List ℚ, a = .two [row] ∧ row.length = 18 := by
  have hS : A.scaler = ⟨some (mean, scale)⟩ := by rw [← hs]
  have hSc : A.cond_scaler = ⟨some (meanC, scaleC)⟩ := by rw [← hsc]
  have hsf : (A.scaler.fitted).isNone = false := by rw [hs]; rfl
  have hsfC : (A.cond_scaler.fitted).isNone = false := by rw [hsc]; rfl
  refine ⟨?_, ?_, ?_⟩
  · intro v hv
    rw [predict_skin_type_ok_iff A m _ hm ht hsf, hS]
    show ∃ out, Scaler.transform _ (.two [v]) = .ok out
    rw [transform_ok_two]
    refine ⟨by simp, ?_⟩
    intro r hr
    rw [List.mem_singleton.mp hr, hv, hlen]
  · intro v
    unfold predict_skin_condition
    rw [hmc, htc]
    dsimp only
    rw [if_neg (by simp [hsfC]), hSc, transform_one]
  · intro a
    rw [predict_skin_type_ok_iff A m _ hm ht hsf,
      predict_skin_condition_ok_iff A mc _ hmc htc hsfC, hS, hSc]
    cases a with
    | one v =>
      rw [transform_one]
      refine iff_of_false ?_ ?_
      · rintro ⟨-, ⟨out, hout⟩⟩
        exact absurd hout (by simp)
      · rintro ⟨row, hrow, -⟩
        exact absurd hrow (by simp)
    | two rows =>
      show ((∃ out, Scaler.transform _ (.two [rows.flatten]) = .ok out) ∧ _) ↔ _
      rw [transform_ok_two, transform_ok_two]
      constructor
      · rintro ⟨⟨-, hflat⟩, hne, hall⟩
        have hflatlen : rows.flatten.length = mean.length :=
          hflat rows.flatten (List.mem_singleton_self _)
        have hall18 : ∀ r ∈ rows, r.length = 18 := fun r hr => by
          rw [hall r hr, hlenC]
        have hlen1 : rows.length = 1 := by
          have := flatten_length_of_all rows 18 hall18
          rw [hflatlen, hlen] at this
          have hpos : rows.length ≠ 0 := fun hz => hne (List.length_eq_zero.mp hz)
          omega
        obtain ⟨row, rfl⟩ := List.length_eq_one.mp hlen1
        exact ⟨row, rfl, hall18 row (List.mem_singleton_self _)⟩
      · rintro ⟨row, hrow, hrl⟩
        obtain rfl : rows = [row] := by injection hrow
        refine ⟨⟨by simp, ?_⟩, by simp, ?_⟩
        · intro r hr
          rw [List.mem_singleton.mp hr]
          simp [hrl, hlen]
        · intro r hr
          rw [List.mem_singleton.mp hr, hrl, hlenC]

/-- Witness for C9 at the concrete trained analyzer: a flat 18-vector is
accepted by the type predictor, rejected by the condition predictor, and the
(1, 18) array is accepted by both. -/
theorem predict_input_shapes_witness :
    (trainedAnalyzer.model = some uniformForest
        ∧ trainedAnalyzer.is_trained = true
        ∧ trainedAnalyzer.scaler.fitted
            = some (List.replicate 18 0, List.replicate 18 1)
        ∧ (List.replicate 18 (0 : ℚ)).length = 18
        ∧ zeros18.length = 18)
      ∧ (∃ r, predict_skin_type trainedAnalyzer (.one zeros18) = .ok r)
      ∧ predict_skin_condition trainedAnalyzer (.one zeros18)
          = .error (.other expected2DMsg)
      ∧ ((∃ r, predict_skin_type trainedAnalyzer (.two [zeros18]) = .ok r)
          ∧ (∃ r, predict_skin_condition trainedAnalyzer (.two [zeros18]) = .ok r)) := by
  have H := predict_input_shapes trainedAnalyzer uniformForest uniformForest
    (List.replicate 18 0) (List.replicate 18 1)
    (List.replicate 18 0) (List.replicate 18 1)
    rfl rfl rfl rfl rfl (by simp) rfl (by simp)
  exact ⟨⟨rfl, rfl, rfl, by simp, by simp [zeros18]⟩,
    H.1 zeros18 (by simp [zeros18]),
    H.2.1 zeros18,
    (H.2.2 (.two [zeros18])).mpr ⟨zeros18, rfl, by simp [zeros18]⟩⟩

/-! ## auto_train (C2) -/

theorem count_map_eq_countP {α : Type} (f : α → Fin 4) (l : List α) (c : Fin 4) :
    (l.map f).count c = l.countP (fun s => f s == c) := by
  induction l with
  | nil => rfl
  | cons a t ih => simp [List.count_cons, List.countP_cons, ih]

theorem countP_ty_genStratum (ty cond c : Fin 4) (k : ℕ) (st : RngState) :
    (genStratum ty cond k st).1.countP (fun s => s.ty == c)
      = if ty = c then k else 0 := by
  induction k generalizing st with
  | zero => simp [genStratum]
  | succ n ih =>
    simp only [genStratum, List.countP_cons]
    rw [ih]
    by_cases h : ty = c <;> simp [h]

theorem countP_cond_genStratum (ty cond c : Fin 4) (k : ℕ) (st : RngState) :
    (genStratum ty cond k st).1.countP (fun s => s.cond == c)
      = if cond = c then k else 0 := by
  induction k generalizing st with
  | zero => simp [genStratum]
  | succ n ih =>
    simp only [genStratum, List.countP_cons]
    rw [ih]
    by_cases h : cond = c <;> simp [h]

theorem countP_ty_genType (ty c : Fin 4) (cnt : ℕ) (st : RngState) :
    (genType ty cnt st).1.countP (fun s => s.ty == c)
      = if ty = c then 4 * cnt else 0 := by
  simp only [genType, List.countP_append, countP_ty_genStratum]
  by_cases h : ty = c
  · simp [h]
    omega
  · simp [h]

theorem countP_cond_genType (ty c : Fin 4) (cnt : ℕ) (st : RngState) :
    (genType ty cnt st).1.countP (fun s => s.cond == c) = cnt := by
  simp only [genType, List.countP_append, countP_cond_genStratum]
  fin_cases c <;> simp

theorem count_ty_generate (n : ℕ) (rng : RngState) (c : Fin 4) :
    ((generate_synthetic_data n rng).map (·.ty)).count c = 4 * (n / 16) := by
  rw [count_map_eq_countP]
  simp only [generate_synthetic_data, List.countP_append, countP_ty_genType]
  have h16 : n / 4 / 4 = n / 16 := by rw [Nat.div_div_eq_div_mul]
  fin_cases c <;> simp <;> omega

theorem count_cond_generate (n : ℕ) (rng : RngState) (c : Fin 4) :
    ((generate_synthetic_data n rng).map (·.cond)).count c = 4 * (n / 16) := by
  rw [count_map_eq_countP]
  simp only [generate_synthetic_data, List.countP_append, countP_cond_genType]
  rw [Nat.div_div_eq_div_mul]
  omega

theorem stratifyOk_generate_ty (rng : RngState) :
    stratifyOk ((generate_synthetic_data 1000 rng).map (·.ty)) = true := by
  unfold stratifyOk
  rw [List.all_eq_true]
  intro c _
  have h : ((generate_synthetic_data 1000 rng).map (·.ty)).count c = 248 := by
    rw [count_ty_generate]
  simp [h]

theorem stratifyOk_generate_cond (rng : RngState) :
    stratifyOk ((generate_synthetic_data 1000 rng).map (·.cond)) = true := by
  unfold stratifyOk
  rw [List.all_eq_true]
  intro c _
  have h : ((generate_synthetic_data 1000 rng).map (·.cond)).count c = 248 := by
    rw [count_cond_generate]
  simp [h]

/-- C2: `auto_train` generates 1000 synthetic samples — 992 actual samples
(16 strata × 62) — trains both classifiers on the same triples (the type
model on the SkinType labels and the condition model on the SkinCondition
labels of the same sample list), each stratified split succeeds (every class
has 248 samples) so each training run returns its held-out accuracy, and
`auto_train` returns true exactly when both accuracies exceed 0.60. -/
theorem auto_train_success_iff
    (fitEvalT fitEvalC : List (List ℚ) → List (Fin 4) → ℚ) (rng : RngState)
    (data : List Sample) (hdata : data = generate_synthetic_data 1000 rng) :
    data.length = 992
      ∧ (∀ t c : Fin 4, (data.filter (inStratum t c)).length = 62)
      ∧ train_model fitEvalT (data.map (·.features)) (data.map (·.ty))
          = fitEvalT (data.map (·.features)) (data.map (·.ty))
      ∧ train_condition_model fitEvalC (data.map (·.features)) (data.map (·.cond))
          = fitEvalC (data.map (·.features)) (data.map (·.cond))
      ∧ (auto_train fitEvalT fitEvalC rng = true
          ↔ (fitEvalT (data.map (·.features)) (data.map (·.ty)) > 3/5
              ∧ fitEvalC (data.map (·.features)) (data.map (·.cond)) > 3/5)) := by
  subst hdata
  have hty := stratifyOk_generate_ty rng
  have hcond := stratifyOk_generate_cond rng
  have hTM : train_model fitEvalT
      ((generate_synthetic_data 1000 rng).map (·.features))
      ((generate_synthetic_data 1000 rng).map (·.ty))
      = fitEvalT ((generate_synthetic_data 1000 rng).map (·.features))
          ((generate_synthetic_data 1000 rng).map (·.ty)) := by
    simp [train_model, train_model_outcome, train_model_body, hty]
  have hTC : train_condition_model fitEvalC
      ((generate_synthetic_data 1000 rng).map (·.features))
      ((generate_synthetic_data 1000 rng).map (·.cond))
      = fitEvalC ((generate_synthetic_data 1000 rng).map (·.features))
          ((generate_synthetic_data 1000 rng).map (·.cond)) := by
    simp [train_condition_model, train_condition_model_outcome, train_model_body, hcond]
  refine ⟨?_, fun t c => ?_, hTM, hTC, ?_⟩
  · rw [length_generate]
  · rw [countStratum_generate]
  · simp only [auto_train]
    rw [if_neg (by rw [List.length_map, length_generate]; norm_num)]
    rw [hTM, hTC]
    simp [Bool.and_eq_true, decide_eq_true_eq]

/-- Witness for C2 at concrete oracles (accuracies 1 and 0) and a concrete
ambient random state. -/
theorem auto_train_success_iff_witness :
    (generate_synthetic_data 1000 ⟨0⟩).length = 992
      ∧ (auto_train (fun _ _ => 1) (fun _ _ => 0) ⟨0⟩ = true
          ↔ ((1 : ℚ) > 3/5 ∧ (0 : ℚ) > 3/5)) :=
  ⟨(auto_train_success_iff (fun _ _ => 1) (fun _ _ => 0) ⟨0⟩
      (generate_synthetic_data 1000 ⟨0⟩) rfl).1,
    (auto_train_success_iff (fun _ _ => 1) (fun _ _ => 0) ⟨0⟩
      (generate_synthetic_data 1000 ⟨0⟩) rfl).2.2.2.2⟩

end SkinAnalyzer
